import Mathlib

/-!
Verification development for `ProcessGEE.py` (repository `ProcessGeospatial`).

The Python module downloads and mosaics two Earth-Engine products
(Dynamic World land cover via `get_dynworld_landcover`, Sentinel-2 via
`get_sentinel2`).  This file gives a shallow embedding of the module:

* AOI geometries are lists of vertices with rational coordinates; the
  geopandas `total_bounds` reduction and the large-AOI (1-degree) test are
  embedded directly from the source, including the swapped unpacking order
  `ymin, xmin, ymax, xmax = bbox` that the source uses.
* Earth-Engine image collections are modelled as lists of images carrying a
  `system:index`, an acquisition date (an integer timestamp), a
  `CLOUDY_PIXEL_PERCENTAGE` property and a footprint; `filterBounds`,
  `filterDate` (inclusive start, exclusive end, as in Earth Engine),
  property filters, `merge` (concatenation) and `ee.Join.saveFirst` are
  embedded as list operations.  The collection builders `_get_dynworld_col`
  and `_get_s2_sr_cld_col` follow the loops of the source.
* The two public functions are embedded as trace-producing state
  transformers over a small filesystem model: each run yields the list of
  service/filesystem steps it performs, the final filesystem (directories
  and (directory, filename) pairs), and an `Except` result
  (`NameError` / `OSError` are the reachable failure modes).  Lines of the
  source that are commented out (the whole Sentinel-2 cloud-masking
  pipeline, the Sentinel-2 tile download and the Sentinel-2 cleanup block)
  are accordingly absent from the embedded runs.
-/

namespace ProcessGEE

/-- A vertex of an AOI geometry, as (x, y) in degrees. -/
abbrev Point : Type := ℚ × ℚ

/-- Bounding box in the geopandas `total_bounds` order `(xmin, ymin, xmax, ymax)`. -/
structure BBox where
  xmin : ℚ
  ymin : ℚ
  xmax : ℚ
  ymax : ℚ
deriving DecidableEq

/-- geopandas `GeoDataFrame.total_bounds`: componentwise min/max over all vertices
of all geometries of the shapefile (the empty shapefile gets a degenerate box). -/
def totalBounds : List Point → BBox
  | [] => ⟨0, 0, 0, 0⟩
  | p :: ps =>
      ps.foldl (fun b q => ⟨min b.xmin q.1, min b.ymin q.2, max b.xmax q.1, max b.ymax q.2⟩)
        ⟨p.1, p.2, p.1, p.2⟩

/-- `_get_aoi` (ProcessGEE.py lines 42-54): load the AOI shapefile and return its
bounding box.  The Earth-Engine feature/geometry results of the source are the
vertex list itself in this model. -/
def _get_aoi (shp : List Point) : BBox := totalBounds shp

/-- Large-AOI test of `get_dynworld_landcover` (lines 99-105).  The source unpacks
`ymin, xmin, ymax, xmax = bbox` even though `total_bounds` is ordered
`(xmin, ymin, xmax, ymax)`, then tests `abs(ymax - ymin) > 1 or abs(xmax - xmin) > 1`. -/
def largeAOI_dw (b : BBox) : Bool :=
  let ymin := b.xmin
  let xmin := b.ymin
  let ymax := b.xmax
  let xmax := b.ymax
  decide (|ymax - ymin| > 1) || decide (|xmax - xmin| > 1)

/-- Large-AOI test of `get_sentinel2` (lines 340-341), with the same swapped
unpacking `ymin, xmin, ymax, xmax = bbox` as in `get_dynworld_landcover`. -/
def largeAOI_s2 (b : BBox) : Bool :=
  let ymin := b.xmin
  let xmin := b.ymin
  let ymax := b.xmax
  let xmax := b.ymax
  decide (|ymax - ymin| > 1) || decide (|xmax - xmin| > 1)

/-- Modelled from the claim wording for the refinement comparison of C9: the same
expression `abs(ymax - ymin) > 1 or abs(xmax - xmin) > 1` computed with correctly
labeled coordinates (`xmin, ymin, xmax, ymax = bbox`). -/
def largeAOIcorrectlyLabeled (b : BBox) : Bool :=
  let xmin := b.xmin
  let ymin := b.ymin
  let xmax := b.xmax
  let ymax := b.ymax
  decide (|ymax - ymin| > 1) || decide (|xmax - xmin| > 1)

/-- A bounding box is well formed when its min corner is below its max corner;
`total_bounds` of a nonempty shapefile always satisfies this. -/
def bboxValid (b : BBox) : Prop := b.xmin ≤ b.xmax ∧ b.ymin ≤ b.ymax

/-- The claim-level tiling condition: the box spans strictly more than 1 degree
in the X direction or strictly more than 1 degree in the Y direction. -/
def spansOverOneDegree (b : BBox) : Prop :=
  1 < b.xmax - b.xmin ∨ 1 < b.ymax - b.ymin

/-- An Earth-Engine image: `system:index`, acquisition date (integer timestamp),
the `CLOUDY_PIXEL_PERCENTAGE` property, a footprint, and a property map used by
`ee.Join.saveFirst` to attach the matched cloud-probability image. -/
structure EEImage where
  sysIndex : String
  date : ℤ
  cloudyPct : ℤ
  footprint : BBox
  props : List (String × String)
deriving DecidableEq

/-- The Earth-Engine catalog: each collection name yields its list of images. -/
abbrev Catalog : Type := String → List EEImage

/-- Footprint/AOI overlap test used to model `filterBounds`. -/
def rectIntersects (a b : BBox) : Bool :=
  decide (a.xmin ≤ b.xmax) && decide (b.xmin ≤ a.xmax) &&
    decide (a.ymin ≤ b.ymax) && decide (b.ymin ≤ a.ymax)

/-- `ImageCollection.filterBounds(aoi)`: keep images whose footprint meets the AOI. -/
def filterBounds (aoi : BBox) (col : List EEImage) : List EEImage :=
  col.filter (fun im => rectIntersects im.footprint aoi)

/-- `ImageCollection.filterDate(start, end)`: Earth Engine keeps images with
`start <= date < end` (inclusive start, exclusive end). -/
def filterDate (s e : ℤ) (col : List EEImage) : List EEImage :=
  col.filter (fun im => decide (s ≤ im.date) && decide (im.date < e))

/-- `.filter(ee.Filter.lte('CLOUDY_PIXEL_PERCENTAGE', cf))`. -/
def filterCloudy (cf : ℤ) (col : List EEImage) : List EEImage :=
  col.filter (fun im => decide (im.cloudyPct ≤ cf))

/-- `ee.Join.saveFirst(key).apply(primary, secondary, equals(system:index))`:
keep each primary image that has a matching secondary image (same
`system:index`), storing the first match under `key`. -/
def joinSaveFirst (key : String) (primary secondary : List EEImage) : List EEImage :=
  primary.filterMap (fun p =>
    (secondary.find? (fun q => q.sysIndex == p.sysIndex)).map
      (fun q => { p with props := (key, q.sysIndex) :: p.props }))

/-- One date window of `_get_dynworld_col`: the Dynamic World collection filtered
to the AOI bounds and to the window `[s, e)`. -/
def dwWindow (cat : Catalog) (aoi : BBox) (s e : ℤ) : List EEImage :=
  filterDate s e (filterBounds aoi (cat "GOOGLE/DYNAMICWORLD/V1"))

/-- `_get_dynworld_col` (lines 20-39): the window of the first start/end pair,
then a loop over `range(1, len(start_date))` merging the remaining windows. -/
def _get_dynworld_col (cat : Catalog) (aoi : BBox) (startDate endDate : List ℤ) :
    List EEImage :=
  (List.range' 1 (startDate.length - 1)).foldl
    (fun acc i => acc ++ dwWindow cat aoi (startDate.getD i 0) (endDate.getD i 0))
    (dwWindow cat aoi (startDate.getD 0 0) (endDate.getD 0 0))

/-- One date window of `_get_s2_sr_cld_col`: the harmonized surface-reflectance
collection filtered to the AOI bounds, the window `[s, e)` and the cloud filter,
joined (`saveFirst`) with the cloud-probability collection filtered to the same
AOI bounds and window. -/
def s2Window (cat : Catalog) (aoi : BBox) (cf : ℤ) (s e : ℤ) : List EEImage :=
  joinSaveFirst "s2cloudless"
    (filterCloudy cf (filterDate s e (filterBounds aoi (cat "COPERNICUS/S2_SR_HARMONIZED"))))
    (filterDate s e (filterBounds aoi (cat "COPERNICUS/S2_CLOUD_PROBABILITY")))

/-- `_get_s2_sr_cld_col` (lines 197-233): the joined window of the first
start/end pair; when `len(start_date) != 1`, a loop over
`range(1, len(start_date))` merges the remaining joined windows. -/
def _get_s2_sr_cld_col (cat : Catalog) (aoi : BBox) (startDate endDate : List ℤ)
    (cf : ℤ) : List EEImage :=
  let first := s2Window cat aoi cf (startDate.getD 0 0) (endDate.getD 0 0)
  if startDate.length != 1 then
    (List.range' 1 (startDate.length - 1)).foldl
      (fun acc i => acc ++ s2Window cat aoi cf (startDate.getD i 0) (endDate.getD i 0))
      first
  else first

/-- The reducers the module uses (`ee.Reducer.mode/mean/median`). -/
inductive Reducer where
  | mode
  | mean
  | median
deriving DecidableEq

/-- Steps of a run of a public function.  The last five constructors are the
Sentinel-2 masking/reduction pipeline operations (collection building via
`_get_s2_sr_cld_col`, `_add_cloud_bands...`, `_add_shadow_bands`,
`_apply_cld_shdw_mask`, median reduction); the embedded runs can in principle
emit them, and the theorems below settle whether they ever do. -/
inductive Ev where
  | authenticate
  | initProject (project : String)
  | collectionInfo (indices : List String)
  | reduce (r : Reducer)
  | fishnet (rows cols : Nat)
  | downloadTiles (pfx outDir : String)
  | downloadImage (outDir fname : String)
  | mosaic (outFile : String) (inputs : List String)
  | removeFile (outDir fname : String)
  | removeDir (d : String)
  | buildS2CloudCol
  | addCloudBands
  | addShadowBands
  | applyCloudShadowMask
  | reduceS2Median
deriving DecidableEq

/-- Unhandled Python exceptions reachable in the embedded runs. -/
inductive Err where
  | nameError (n : String)
  | osError (path : String)
deriving DecidableEq

/-- Local filesystem model: existing directories and (directory, filename) pairs.
Only the output folder and what the runs create below it are tracked. -/
structure FS where
  dirs : List String
  files : List (String × String)
deriving DecidableEq

/-- `os.path.join`. -/
def pjoin (a b : String) : String := a ++ "/" ++ b

/-- `os.makedirs` (idempotent, as with `exist_ok=True` or the guarded calls). -/
def FS.makedirs (fs : FS) (d : String) : FS :=
  if fs.dirs.contains d then fs else { fs with dirs := d :: fs.dirs }

/-- A download or mosaic writing file `f` into directory `d`. -/
def FS.addFile (fs : FS) (d f : String) : FS :=
  { fs with files := (d, f) :: fs.files }

/-- `os.remove` on `d/f`. -/
def FS.removeFile (fs : FS) (d f : String) : FS :=
  { fs with files := fs.files.filter (fun p => !(p.1 == d && p.2 == f)) }

/-- Whether directory `d` holds no files. -/
def FS.dirEmpty (fs : FS) (d : String) : Bool :=
  !(fs.files.any (fun p => p.1 == d))

/-- Removal of directory `d` from the directory list (the success case of
`os.rmdir`; the run functions only take it after checking `dirEmpty`). -/
def FS.rmdirRemove (fs : FS) (d : String) : FS :=
  { fs with dirs := fs.dirs.filter (fun x => !(x == d)) }

/-- `glob.glob` restricted to directory `d`: the names (within `d`) of the files
matching `pat`. -/
def glob (fs : FS) (d : String) (pat : String → Bool) : List String :=
  (fs.files.filter (fun p => p.1 == d && pat p.2)).map (fun p => p.2)

/-- Suffix test on the character data (the model of a trailing `*.tif` glob). -/
def sfxMatch (s t : String) : Bool := t.data.isSuffixOf s.data

/-- Test that `t` starts string `s`, on the character data. -/
def startMatch (s t : String) : Bool := t.data.isPrefixOf s.data

/-- The tile features produced by `geemap.fishnet(..., rows=2, cols=2)` are a
2-by-2 grid, so `geemap.download_ee_image_tiles` writes four tiles named
`<pfx><i>.tif`. -/
def downloadTileFiles (pfx : String) : List String :=
  [pfx ++ "1.tif", pfx ++ "2.tif", pfx ++ "3.tif", pfx ++ "4.tif"]

/-- Result of a run: the step trace, the final filesystem, and either a normal
return or the unhandled exception. -/
structure RunResult where
  trace : List Ev
  fs : FS
  result : Except Err Unit

/-- Default Dynamic World band list (lines 93-95). -/
def dwDefaultBands : List String :=
  ["water", "trees", "grass", "flooded_vegetation", "crops", "shrub_and_scrub",
   "built", "bare", "snow_and_ice"]

/-- Default Sentinel-2 band list (lines 336-337). -/
def s2DefaultBands : List String := ["B2", "B3", "B4", "B8", "B12"]

/-- Arguments of `get_dynworld_landcover`.  `outEpsg`/`outRes` are passed through
to the download helpers and do not influence control flow, traces or files. -/
structure DWArgs where
  eeProjectId : String
  aoiShp : List Point
  startDate : List ℤ
  endDate : List ℤ
  outFolder : String
  bands : Option (List String) := none
  outEpsg : ℤ := 4326
  outRes : ℚ := 10
  probType : Option String := none
  cat : Catalog

/-- Arguments of `get_sentinel2`.  The threshold parameters only feed the
commented-out masking pipeline. -/
structure S2Args where
  eeProjectId : String
  aoiShp : List Point
  startDate : List ℤ
  endDate : List ℤ
  outFolder : String
  bands : Option (List String) := none
  outEpsg : ℤ := 4326
  outRes : ℚ := 1 / 10000
  cloudFilter : ℤ := 15
  cloudProbThresh : ℤ := 40
  nirDarkThresh : ℚ := 15 / 100
  cloudProjDist : ℤ := 2
  buffer : ℤ := 0
  cat : Catalog

/-- The large-AOI branch of the landcover-class download (lines 119-147):
make `temp_tiles`, fishnet, download four tiles, glob `*.tif`, mosaic into
`landcover.tif`, delete the globbed tiles, `os.rmdir` the tile directory
(an `OSError` if it is not empty). -/
def dwClassLarge (out : String) : List Ev × FS × Except Err Unit :=
  let tileDir := pjoin out "temp_tiles"
  let fs0 : FS := ⟨[out], []⟩
  let fs1 := fs0.makedirs tileDir
  let fs2 := (downloadTileFiles "landcover_").foldl (fun fs f => fs.addFile tileDir f) fs1
  let mosaicList := glob fs2 tileDir (fun f => sfxMatch f ".tif")
  let fs3 := fs2.addFile out "landcover.tif"
  let fs4 := mosaicList.foldl (fun fs f => fs.removeFile tileDir f) fs3
  let evs := [Ev.fishnet 2 2, Ev.downloadTiles "landcover_" tileDir,
              Ev.mosaic (pjoin out "landcover.tif") mosaicList]
             ++ mosaicList.map (fun f => Ev.removeFile tileDir f)
  if fs4.dirEmpty tileDir then
    (evs ++ [Ev.removeDir tileDir], fs4.rmdirRemove tileDir, Except.ok ())
  else
    (evs, fs4, Except.error (Err.osError tileDir))

/-- The probability section of `get_dynworld_landcover` (lines 159-191): when
`prob_type` is not `None`, make the `probability` folder, reduce with the mean
reducer exactly when `prob_type == 'mean'` and with the median reducer for any
other value, then per band either download tiles (large AOI, after a fishnet)
or download a single image (small AOI).  The tiles are not mosaicked. -/
def dwProb (out : String) (probType : Option String) (bands : List String)
    (large : Bool) (fs : FS) : List Ev × FS :=
  match probType with
  | none => ([], fs)
  | some pt =>
    let outDir := pjoin out "probability"
    let fs1 := fs.makedirs outDir
    let reducer := if pt == "mean" then Reducer.mean else Reducer.median
    if large then
      ([Ev.reduce reducer, Ev.fishnet 2 2]
         ++ bands.map (fun b => Ev.downloadTiles ("landcover_" ++ b ++ "_") outDir),
       bands.foldl
         (fun fs b =>
           (downloadTileFiles ("landcover_" ++ b ++ "_")).foldl
             (fun fs f => fs.addFile outDir f) fs)
         fs1)
    else
      ([Ev.reduce reducer]
         ++ bands.map (fun b => Ev.downloadImage outDir ("landcover_prob_" ++ b ++ ".tif")),
       bands.foldl (fun fs b => fs.addFile outDir ("landcover_prob_" ++ b ++ ".tif")) fs1)

/-- `get_dynworld_landcover` (lines 57-193): authenticate, initialize, load the
AOI, test the large-AOI condition, build the Dynamic World collection, print its
index list, reduce the `label` band with the mode reducer, download the class
raster (tiled and mosaicked for a large AOI, single-shot otherwise), then run
the probability section. -/
def get_dynworld_landcover (a : DWArgs) : RunResult :=
  let bands := a.bands.getD dwDefaultBands
  let bbox := _get_aoi a.aoiShp
  let large := largeAOI_dw bbox
  let col := _get_dynworld_col a.cat bbox a.startDate a.endDate
  let pre := [Ev.authenticate, Ev.initProject a.eeProjectId,
              Ev.collectionInfo (col.map EEImage.sysIndex), Ev.reduce Reducer.mode]
  if large then
    match dwClassLarge a.outFolder with
    | (evs, fs, Except.ok _) =>
        let probOut := dwProb a.outFolder a.probType bands true fs
        ⟨pre ++ evs ++ probOut.1, probOut.2, Except.ok ()⟩
    | (evs, fs, Except.error e) => ⟨pre ++ evs, fs, Except.error e⟩
  else
    let fs1 := FS.addFile ⟨[a.outFolder], []⟩ a.outFolder "landcover.tif"
    let probOut := dwProb a.outFolder a.probType bands false fs1
    ⟨pre ++ [Ev.downloadImage a.outFolder "landcover.tif"] ++ probOut.1,
     probOut.2, Except.ok ()⟩

/-- One iteration of the Sentinel-2 mosaic loop (lines 390-397): glob
`sentinel2_<band>_*.tif` in the tile directory and mosaic the matches into
`sentinel2_<band>.tif` in the output folder. -/
def s2BandStep (out tileDir : String) (st : List Ev × FS) (b : String) :
    List Ev × FS :=
  let ml := glob st.2 tileDir
    (fun f => startMatch f ("sentinel2_" ++ b ++ "_") && sfxMatch f ".tif")
  (st.1 ++ [Ev.mosaic (pjoin out ("sentinel2_" ++ b ++ ".tif")) ml],
   st.2.addFile out ("sentinel2_" ++ b ++ ".tif"))

/-- `get_sentinel2` (lines 314-418): authenticate, initialize, load the AOI,
test the large-AOI condition.  The whole cloud/shadow pipeline (lines 343-367)
is commented out in the source and hence absent here.  Large AOI: make
`temp_tiles`, fishnet, then (the tile download of lines 374-386 being commented
out) mosaic whatever the per-band globs find; the cleanup (lines 399-404) is
commented out, so the tile directory stays.  Small AOI: the loop immediately
reads the undefined name `available_bands` (its defining line 366 is commented
out), an unhandled `NameError` unless the band list is empty. -/
def get_sentinel2 (a : S2Args) : RunResult :=
  let bands := a.bands.getD s2DefaultBands
  let bbox := _get_aoi a.aoiShp
  let large := largeAOI_s2 bbox
  let pre := [Ev.authenticate, Ev.initProject a.eeProjectId]
  let fs0 : FS := ⟨[a.outFolder], []⟩
  if large then
    let tileDir := pjoin a.outFolder "temp_tiles"
    let fs1 := fs0.makedirs tileDir
    let st := bands.foldl (s2BandStep a.outFolder tileDir) ([Ev.fishnet 2 2], fs1)
    ⟨pre ++ st.1, st.2, Except.ok ()⟩
  else
    match bands with
    | [] => ⟨pre, fs0, Except.ok ()⟩
    | _ :: _ => ⟨pre, fs0, Except.error (Err.nameError "available_bands")⟩

/-- Fishnet recognizer. -/
def Ev.isFishnet : Ev → Bool
  | Ev.fishnet _ _ => true
  | _ => false

/-- Whether a run took the tiled download path (marker: `geemap.fishnet` is run
exactly on the tiled paths of both functions). -/
def RunResult.usedTiling (r : RunResult) : Bool :=
  r.trace.any Ev.isFishnet

/-- The Sentinel-2 masking/reduction pipeline operations. -/
def isS2Pipeline : Ev → Bool
  | Ev.buildS2CloudCol => true
  | Ev.addCloudBands => true
  | Ev.addShadowBands => true
  | Ev.applyCloudShadowMask => true
  | Ev.reduceS2Median => true
  | _ => false

/-- Request construction and local file handling: the only step kinds a
Sentinel-2 run may consist of, per claim C4. -/
def isS2Allowed : Ev → Bool
  | Ev.authenticate => true
  | Ev.initProject _ => true
  | Ev.fishnet _ _ => true
  | Ev.mosaic _ _ => true
  | _ => false

/-- Mosaic recognizer, for counting mosaic steps. -/
def Ev.isMosaic : Ev → Bool
  | Ev.mosaic _ _ => true
  | _ => false

/-- Output file of a mosaic step (junk on other steps). -/
def Ev.mosaicTarget : Ev → String
  | Ev.mosaic f _ => f
  | _ => ""

/-- Download recognizer (tile or single-image download). -/
def Ev.isDownload : Ev → Bool
  | Ev.downloadTiles _ _ => true
  | Ev.downloadImage _ _ => true
  | _ => false

/-- The per-band probability download step the probability section performs,
as a function of the tiling decision. -/
def probOutputEv (large : Bool) (out b : String) : Ev :=
  if large then Ev.downloadTiles ("landcover_" ++ b ++ "_") (pjoin out "probability")
  else Ev.downloadImage (pjoin out "probability") ("landcover_prob_" ++ b ++ ".tif")

/-- The step list common to every `get_dynworld_landcover` run before the class
download: authenticate, initialize, report the collection, mode-reduce. -/
def dwPre (a : DWArgs) : List Ev :=
  [Ev.authenticate, Ev.initProject a.eeProjectId,
   Ev.collectionInfo
     ((_get_dynworld_col a.cat (_get_aoi a.aoiShp) a.startDate a.endDate).map EEImage.sysIndex),
   Ev.reduce Reducer.mode]

/-- The tile names the landcover-class tile download writes (in the reverse
order the glob lists them in the model). -/
def dwClassTileNames : List String :=
  ["landcover_4.tif", "landcover_3.tif", "landcover_2.tif", "landcover_1.tif"]

/-- The steps of the large-AOI landcover-class branch, in closed form. -/
def dwClassLargeEvs (out : String) : List Ev :=
  [Ev.fishnet 2 2, Ev.downloadTiles "landcover_" (pjoin out "temp_tiles"),
   Ev.mosaic (pjoin out "landcover.tif") dwClassTileNames]
  ++ dwClassTileNames.map (fun f => Ev.removeFile (pjoin out "temp_tiles") f)
  ++ [Ev.removeDir (pjoin out "temp_tiles")]

/-- Example arguments: small (1-point) AOI for `get_dynworld_landcover`. -/
def dwArgsSmallW : DWArgs :=
  { eeProjectId := "proj", aoiShp := [(0, 0)], startDate := [0], endDate := [1],
    outFolder := "out", cat := fun _ => [] }

/-- Example arguments: large (2-degree) AOI for `get_dynworld_landcover` with a
probability request. -/
def dwArgsProbLargeW : DWArgs :=
  { eeProjectId := "proj", aoiShp := [(0, 0), (2, 2)], startDate := [0], endDate := [1],
    outFolder := "out", bands := some ["water"], probType := some "mean",
    cat := fun _ => [] }

/-- Example arguments: small AOI with an unrecognized probability type. -/
def dwArgsProbOddW : DWArgs :=
  { eeProjectId := "proj", aoiShp := [(0, 0)], startDate := [0], endDate := [1],
    outFolder := "out", bands := some ["water"], probType := some "average",
    cat := fun _ => [] }

/-- Example arguments: small AOI for `get_sentinel2`. -/
def s2ArgsSmallW : S2Args :=
  { eeProjectId := "proj", aoiShp := [(0, 0)], startDate := [0], endDate := [1],
    outFolder := "out", cat := fun _ => [] }

/-- Example arguments: small AOI for `get_sentinel2` with an explicitly empty
band list. -/
def s2ArgsEmptyBandsW : S2Args :=
  { eeProjectId := "proj", aoiShp := [(0, 0)], startDate := [0], endDate := [1],
    outFolder := "out", bands := some [], cat := fun _ => [] }

/-- Example arguments: large (2-degree) AOI for `get_sentinel2`. -/
def s2ArgsLargeW : S2Args :=
  { eeProjectId := "proj", aoiShp := [(0, 0), (2, 2)], startDate := [0], endDate := [1],
    outFolder := "out", cat := fun _ => [] }

/-- A shapefile with the same total bounds as `[(0,0), (2,2)]` but a different
shape (more vertices, interior point). -/
def shpSameBoundsW : List Point := [(0, 0), (2, 0), (0, 2), (2, 2), (1, 1)]

/-- A shapefile with the same total bounds as `[(0,0)]` but more vertices. -/
def shpSameBoundsSmallW : List Point := [(0, 0), (0, 0), (0, 0)]

lemma pjoin_length (a b : String) : (pjoin a b).length = a.length + 1 + b.length := by
  simp [pjoin, String.length_append]
  decide

lemma ne_pjoin_self (s t : String) : s ≠ pjoin s t := by
  intro he
  have h2 := congrArg String.length he
  rw [pjoin_length] at h2
  omega

lemma beq_pjoin_self (s t : String) : (s == pjoin s t) = false := by
  exact beq_eq_false_iff_ne.mpr (ne_pjoin_self s t)

lemma pjoin_beq_self (s t : String) : (pjoin s t == s) = false := by
  exact beq_eq_false_iff_ne.mpr (fun h => ne_pjoin_self s t h.symm)

lemma pjoin_beq_pjoin (s t u : String) (h : t.length ≠ u.length) :
    (pjoin s t == pjoin s u) = false := by
  refine beq_eq_false_iff_ne.mpr (fun he => ?_)
  have h2 := congrArg String.length he
  rw [pjoin_length, pjoin_length] at h2
  omega

lemma dwClassLarge_eq (out : String) :
    dwClassLarge out
      = (dwClassLargeEvs out, ⟨[out], [(out, "landcover.tif")]⟩, Except.ok ()) := by
  have h1 : (out == pjoin out "temp_tiles") = false := beq_pjoin_self out "temp_tiles"
  have h2 : (pjoin out "temp_tiles" == out) = false := pjoin_beq_self out "temp_tiles"
  have n1 : ¬(out = pjoin out "temp_tiles") := ne_pjoin_self out "temp_tiles"
  have n2 : ¬(pjoin out "temp_tiles" = out) := fun h => n1 h.symm
  simp +decide [dwClassLarge, dwClassLargeEvs, dwClassTileNames, downloadTileFiles, glob,
    FS.makedirs, FS.addFile, FS.removeFile, FS.dirEmpty, FS.rmdirRemove,
    h1, h2, n1, n2, List.elem]

lemma largeAOI_same (b : BBox) : largeAOI_dw b = largeAOI_s2 b := rfl

lemma largeAOI_dw_iff (b : BBox) (h : bboxValid b) :
    largeAOI_dw b = true ↔ spansOverOneDegree b := by
  have h1 : |b.xmax - b.xmin| = b.xmax - b.xmin := abs_of_nonneg (sub_nonneg.mpr h.1)
  have h2 : |b.ymax - b.ymin| = b.ymax - b.ymin := abs_of_nonneg (sub_nonneg.mpr h.2)
  simp [largeAOI_dw, spansOverOneDegree, h1, h2]

lemma makedirs_files (fs : FS) (d : String) : (fs.makedirs d).files = fs.files := by
  simp only [FS.makedirs]
  split <;> rfl

lemma foldl_addFileName_dirs {α : Type} (xs : List α) (d : String) (g : α → String) (fs : FS) :
    (xs.foldl (fun fs x => fs.addFile d (g x)) fs).dirs = fs.dirs := by
  induction xs generalizing fs with
  | nil => rfl
  | cons x xs ih => simpa [FS.addFile] using ih _

lemma foldl_addFileName_files {α : Type} (xs : List α) (d : String) (g : α → String) (fs : FS)
    (p : String × String)
    (h : p ∈ (xs.foldl (fun fs x => fs.addFile d (g x)) fs).files) :
    p ∈ fs.files ∨ p.1 = d := by
  induction xs generalizing fs with
  | nil => exact Or.inl h
  | cons x xs ih =>
    rcases ih _ h with h2 | h2
    · simp only [FS.addFile, List.mem_cons] at h2
      rcases h2 with h3 | h3
      · exact Or.inr (by rw [h3])
      · exact Or.inl h3
    · exact Or.inr h2

lemma foldl_nested_addFile_dirs {α : Type} (xs : List α) (d : String) (g : α → List String)
    (fs : FS) :
    (xs.foldl (fun fs x => (g x).foldl (fun fs f => fs.addFile d f) fs) fs).dirs = fs.dirs := by
  induction xs generalizing fs with
  | nil => rfl
  | cons x xs ih =>
    rw [List.foldl_cons, ih]
    exact foldl_addFileName_dirs (g x) d (fun f => f) fs

lemma foldl_nested_addFile_files {α : Type} (xs : List α) (d : String) (g : α → List String)
    (fs : FS) (p : String × String)
    (h : p ∈ (xs.foldl (fun fs x => (g x).foldl (fun fs f => fs.addFile d f) fs) fs).files) :
    p ∈ fs.files ∨ p.1 = d := by
  induction xs generalizing fs with
  | nil => exact Or.inl h
  | cons x xs ih =>
    rcases ih _ h with h2 | h2
    · exact foldl_addFileName_files (g x) d (fun f => f) fs p h2
    · exact Or.inr h2

lemma dwProb_none (out : String) (bands : List String) (large : Bool) (fs : FS) :
    dwProb out none bands large fs = ([], fs) := rfl

lemma dwProb_trace_some (out pt : String) (bands : List String) (large : Bool) (fs : FS) :
    (dwProb out (some pt) bands large fs).1
      = Ev.reduce (if pt == "mean" then Reducer.mean else Reducer.median)
          :: ((if large then [Ev.fishnet 2 2] else [])
              ++ bands.map (probOutputEv large out)) := by
  cases large <;> simp [dwProb, probOutputEv]

lemma dwProb_fs_some_large (out pt : String) (bands : List String) (fs : FS) :
    (dwProb out (some pt) bands true fs).2
      = bands.foldl
          (fun fs b => (downloadTileFiles ("landcover_" ++ b ++ "_")).foldl
            (fun fs f => fs.addFile (pjoin out "probability") f) fs)
          (fs.makedirs (pjoin out "probability")) := rfl

lemma dwProb_fs_some_small (out pt : String) (bands : List String) (fs : FS) :
    (dwProb out (some pt) bands false fs).2
      = bands.foldl
          (fun fs b => fs.addFile (pjoin out "probability") ("landcover_prob_" ++ b ++ ".tif"))
          (fs.makedirs (pjoin out "probability")) := rfl

lemma makedirs_dirs_mem (fs : FS) (d2 : String) (d : String)
    (h : d2 ∈ (fs.makedirs d).dirs) : d2 ∈ fs.dirs ∨ d2 = d := by
  simp only [FS.makedirs] at h
  split at h
  · exact Or.inl h
  · rcases List.mem_cons.mp h with h3 | h3
    · exact Or.inr h3
    · exact Or.inl h3

lemma dwProb_dirs (out : String) (pt : Option String) (bands : List String) (large : Bool)
    (fs : FS) (d : String) (h : d ∈ (dwProb out pt bands large fs).2.dirs) :
    d ∈ fs.dirs ∨ d = pjoin out "probability" := by
  match pt with
  | none => exact Or.inl h
  | some pt =>
    cases large with
    | true =>
      rw [dwProb_fs_some_large, foldl_nested_addFile_dirs] at h
      exact makedirs_dirs_mem fs d (pjoin out "probability") h
    | false =>
      rw [dwProb_fs_some_small, foldl_addFileName_dirs] at h
      exact makedirs_dirs_mem fs d (pjoin out "probability") h

lemma dwProb_files (out : String) (pt : Option String) (bands : List String) (large : Bool)
    (fs : FS) (p : String × String) (h : p ∈ (dwProb out pt bands large fs).2.files) :
    p ∈ fs.files ∨ p.1 = pjoin out "probability" := by
  match pt with
  | none => exact Or.inl h
  | some pt =>
    cases large with
    | true =>
      rw [dwProb_fs_some_large] at h
      rcases foldl_nested_addFile_files _ _ _ _ _ h with h2 | h2
      · rw [makedirs_files] at h2
        exact Or.inl h2
      · exact Or.inr h2
    | false =>
      rw [dwProb_fs_some_small] at h
      rcases foldl_addFileName_files _ _ _ _ _ h with h2 | h2
      · rw [makedirs_files] at h2
        exact Or.inl h2
      · exact Or.inr h2

lemma any_map_eq_false {α : Type} (l : List α) (f : α → Ev) (p : Ev → Bool)
    (h : ∀ x, p (f x) = false) : (l.map f).any p = false := by
  induction l with
  | nil => rfl
  | cons x xs ih => simp [h, ih]

lemma filter_map_eq_nil {α : Type} (l : List α) (f : α → Ev) (p : Ev → Bool)
    (h : ∀ x, p (f x) = false) : (l.map f).filter p = [] := by
  induction l with
  | nil => rfl
  | cons x xs ih => simp [h, ih]

lemma dwRun_large (a : DWArgs) (h : largeAOI_dw (_get_aoi a.aoiShp) = true) :
    get_dynworld_landcover a =
      ⟨dwPre a ++ dwClassLargeEvs a.outFolder
         ++ (dwProb a.outFolder a.probType (a.bands.getD dwDefaultBands) true
              ⟨[a.outFolder], [(a.outFolder, "landcover.tif")]⟩).1,
       (dwProb a.outFolder a.probType (a.bands.getD dwDefaultBands) true
          ⟨[a.outFolder], [(a.outFolder, "landcover.tif")]⟩).2,
       Except.ok ()⟩ := by
  simp only [get_dynworld_landcover, h, if_true, dwClassLarge_eq, dwPre]

lemma dwRun_small (a : DWArgs) (h : largeAOI_dw (_get_aoi a.aoiShp) = false) :
    get_dynworld_landcover a =
      ⟨dwPre a ++ [Ev.downloadImage a.outFolder "landcover.tif"]
         ++ (dwProb a.outFolder a.probType (a.bands.getD dwDefaultBands) false
              ⟨[a.outFolder], [(a.outFolder, "landcover.tif")]⟩).1,
       (dwProb a.outFolder a.probType (a.bands.getD dwDefaultBands) false
          ⟨[a.outFolder], [(a.outFolder, "landcover.tif")]⟩).2,
       Except.ok ()⟩ := by
  simp only [get_dynworld_landcover, h, Bool.false_eq_true, if_false, dwPre, FS.addFile]

lemma s2Run_large (a : S2Args) (h : largeAOI_s2 (_get_aoi a.aoiShp) = true) :
    get_sentinel2 a =
      ⟨[Ev.authenticate, Ev.initProject a.eeProjectId]
         ++ ((a.bands.getD s2DefaultBands).foldl
              (s2BandStep a.outFolder (pjoin a.outFolder "temp_tiles"))
              ([Ev.fishnet 2 2], ⟨[pjoin a.outFolder "temp_tiles", a.outFolder], []⟩)).1,
       ((a.bands.getD s2DefaultBands).foldl
          (s2BandStep a.outFolder (pjoin a.outFolder "temp_tiles"))
          ([Ev.fishnet 2 2], ⟨[pjoin a.outFolder "temp_tiles", a.outFolder], []⟩)).2,
       Except.ok ()⟩ := by
  have n2 : ¬(pjoin a.outFolder "temp_tiles" = a.outFolder) :=
    fun h2 => ne_pjoin_self a.outFolder "temp_tiles" h2.symm
  have hm : FS.makedirs ⟨[a.outFolder], []⟩ (pjoin a.outFolder "temp_tiles")
      = ⟨[pjoin a.outFolder "temp_tiles", a.outFolder], []⟩ := by
    simp [FS.makedirs, List.elem, pjoin_beq_self, n2]
  simp only [get_sentinel2, h, if_true, hm]

lemma s2Run_small (a : S2Args) (h : largeAOI_s2 (_get_aoi a.aoiShp) = false) :
    get_sentinel2 a =
      ⟨[Ev.authenticate, Ev.initProject a.eeProjectId], ⟨[a.outFolder], []⟩,
       match a.bands.getD s2DefaultBands with
       | [] => Except.ok ()
       | _ :: _ => Except.error (Err.nameError "available_bands")⟩ := by
  simp only [get_sentinel2, h, Bool.false_eq_true, if_false]
  match hb : a.bands.getD s2DefaultBands with
  | [] => rfl
  | _ :: _ => rfl

lemma s2_fold_trace_mem (out tileDir : String) (bands : List String) (acc : List Ev) (fs : FS)
    (e : Ev) (h : e ∈ (bands.foldl (s2BandStep out tileDir) (acc, fs)).1) :
    e ∈ acc
      ∨ ∃ b ml, b ∈ bands ∧ e = Ev.mosaic (pjoin out ("sentinel2_" ++ b ++ ".tif")) ml := by
  induction bands generalizing acc fs with
  | nil => exact Or.inl h
  | cons b bs ih =>
    rw [List.foldl_cons] at h
    rcases ih _ _ h with h2 | ⟨b2, ml, hb2, he⟩
    · simp only [s2BandStep, List.mem_append, List.mem_singleton] at h2
      rcases h2 with h3 | h3
      · exact Or.inl h3
      · exact Or.inr ⟨b, _, List.mem_cons_self b bs, h3⟩
    · exact Or.inr ⟨b2, ml, List.mem_cons_of_mem b hb2, he⟩

lemma s2_fold_mosaics (out tileDir : String) (bands : List String) (acc : List Ev) (fs : FS) :
    ((bands.foldl (s2BandStep out tileDir) (acc, fs)).1.filter Ev.isMosaic).map Ev.mosaicTarget
      = (acc.filter Ev.isMosaic).map Ev.mosaicTarget
        ++ bands.map (fun b => pjoin out ("sentinel2_" ++ b ++ ".tif")) := by
  induction bands generalizing acc fs with
  | nil => simp
  | cons b bs ih =>
    rw [List.foldl_cons, ih]
    simp [s2BandStep, Ev.isMosaic, Ev.mosaicTarget]

lemma s2_fold_any_of_acc (out tileDir : String) (bands : List String) (acc : List Ev) (fs : FS)
    (p : Ev → Bool) (h : acc.any p = true) :
    ((bands.foldl (s2BandStep out tileDir) (acc, fs)).1).any p = true := by
  induction bands generalizing acc fs with
  | nil => exact h
  | cons b bs ih =>
    rw [List.foldl_cons]
    exact ih _ _ (by simp [s2BandStep, List.any_append, h])

lemma isFishnet_probOutputEv (large : Bool) (out b : String) :
    Ev.isFishnet (probOutputEv large out b) = false := by
  cases large <;> simp [probOutputEv, Ev.isFishnet]

lemma isMosaic_probOutputEv (large : Bool) (out b : String) :
    Ev.isMosaic (probOutputEv large out b) = false := by
  cases large <;> simp [probOutputEv, Ev.isMosaic]

lemma reduce_ne_probOutputEv (x : Reducer) (large : Bool) (out b : String) :
    Ev.reduce x ≠ probOutputEv large out b := by
  cases large <;> simp [probOutputEv]

lemma usedTiling_dw (a : DWArgs) :
    (get_dynworld_landcover a).usedTiling = largeAOI_dw (_get_aoi a.aoiShp) := by
  cases h : largeAOI_dw (_get_aoi a.aoiShp) with
  | false =>
    rw [dwRun_small a h]
    simp only [RunResult.usedTiling, dwPre, List.any_append]
    cases hp : a.probType with
    | none => simp [dwProb_none, Ev.isFishnet]
    | some pt =>
      rw [dwProb_trace_some]
      simp [Ev.isFishnet, any_map_eq_false _ _ _ (isFishnet_probOutputEv false a.outFolder)]
  | true =>
    rw [dwRun_large a h]
    simp [RunResult.usedTiling, dwClassLargeEvs, Ev.isFishnet, List.any_append]

lemma usedTiling_s2 (a : S2Args) :
    (get_sentinel2 a).usedTiling = largeAOI_s2 (_get_aoi a.aoiShp) := by
  cases h : largeAOI_s2 (_get_aoi a.aoiShp) with
  | false =>
    rw [s2Run_small a h]
    simp [RunResult.usedTiling, Ev.isFishnet]
  | true =>
    rw [s2Run_large a h]
    simp only [RunResult.usedTiling, List.any_append]
    rw [s2_fold_any_of_acc _ _ _ _ _ _ (by simp [Ev.isFishnet])]
    simp

lemma dwRun_ok (a : DWArgs) : (get_dynworld_landcover a).result = Except.ok () := by
  cases h : largeAOI_dw (_get_aoi a.aoiShp) with
  | false => rw [dwRun_small a h]
  | true => rw [dwRun_large a h]

/-- C9: although both public functions unpack the total bounds into variables
named in the swapped order, the large-AOI predicate they compute is symmetric
under exchanging the axes, so it equals the predicate computed with correctly
labeled coordinates for every bounding box. -/
theorem c9_swapped_unpack_equivalent (b : BBox) :
    largeAOI_dw b = largeAOIcorrectlyLabeled b
      ∧ largeAOI_s2 b = largeAOIcorrectlyLabeled b := by
  constructor <;> exact Bool.or_comm _ _

/-- C1: for every AOI whose bounding box is well formed, the download strategy
is tiled iff the box spans strictly more than 1 degree in the X direction or
strictly more than 1 degree in the Y direction, in both public functions, and
the decision predicate of the two functions is identical. -/
theorem c1_tiling_decision (ad : DWArgs) (as2 : S2Args)
    (hd : bboxValid (totalBounds ad.aoiShp)) (hs : bboxValid (totalBounds as2.aoiShp)) :
    ((get_dynworld_landcover ad).usedTiling = true
        ↔ spansOverOneDegree (totalBounds ad.aoiShp))
    ∧ ((get_sentinel2 as2).usedTiling = true
        ↔ spansOverOneDegree (totalBounds as2.aoiShp))
    ∧ (∀ b : BBox, largeAOI_dw b = largeAOI_s2 b) := by
  refine ⟨?_, ?_, fun b => rfl⟩
  · rw [usedTiling_dw]
    simp only [_get_aoi]
    exact largeAOI_dw_iff _ hd
  · rw [usedTiling_s2]
    simp only [_get_aoi]
    rw [← largeAOI_same]
    exact largeAOI_dw_iff _ hs

/-- C1 witness: the theorem instantiated at concrete small-AOI arguments. -/
theorem c1_tiling_decision_witness :
    bboxValid (totalBounds dwArgsSmallW.aoiShp)
    ∧ bboxValid (totalBounds s2ArgsSmallW.aoiShp)
    ∧ (((get_dynworld_landcover dwArgsSmallW).usedTiling = true
          ↔ spansOverOneDegree (totalBounds dwArgsSmallW.aoiShp))
       ∧ ((get_sentinel2 s2ArgsSmallW).usedTiling = true
          ↔ spansOverOneDegree (totalBounds s2ArgsSmallW.aoiShp))
       ∧ (∀ b : BBox, largeAOI_dw b = largeAOI_s2 b)) := by
  have h1 : bboxValid (totalBounds dwArgsSmallW.aoiShp) := ⟨le_refl 0, le_refl 0⟩
  have h2 : bboxValid (totalBounds s2ArgsSmallW.aoiShp) := ⟨le_refl 0, le_refl 0⟩
  exact ⟨h1, h2, c1_tiling_decision dwArgsSmallW s2ArgsSmallW h1 h2⟩

/-- C8: the tiled-vs-single-shot decision depends only on the total bounds:
two shapefiles with equal total bounds yield the same strategy in both
functions, whatever their shapes. -/
theorem c8_bounds_determine_strategy (ad : DWArgs) (shp2 : List Point)
    (as2 : S2Args) (shp3 : List Point)
    (h1 : totalBounds ad.aoiShp = totalBounds shp2)
    (h2 : totalBounds as2.aoiShp = totalBounds shp3) :
    (get_dynworld_landcover ad).usedTiling
        = (get_dynworld_landcover { ad with aoiShp := shp2 }).usedTiling
    ∧ (get_sentinel2 as2).usedTiling
        = (get_sentinel2 { as2 with aoiShp := shp3 }).usedTiling := by
  constructor
  · rw [usedTiling_dw, usedTiling_dw]
    show largeAOI_dw (totalBounds ad.aoiShp) = largeAOI_dw (totalBounds shp2)
    rw [h1]
  · rw [usedTiling_s2, usedTiling_s2]
    show largeAOI_s2 (totalBounds as2.aoiShp) = largeAOI_s2 (totalBounds shp3)
    rw [h2]

/-- C8 witness: two pairs of same-bounds, different-shape AOIs get the same
strategy. -/
theorem c8_bounds_determine_strategy_witness :
    totalBounds dwArgsProbLargeW.aoiShp = totalBounds shpSameBoundsW
    ∧ totalBounds s2ArgsSmallW.aoiShp = totalBounds shpSameBoundsSmallW
    ∧ ((get_dynworld_landcover dwArgsProbLargeW).usedTiling
        = (get_dynworld_landcover { dwArgsProbLargeW with aoiShp := shpSameBoundsW }).usedTiling
       ∧ (get_sentinel2 s2ArgsSmallW).usedTiling
        = (get_sentinel2 { s2ArgsSmallW with aoiShp := shpSameBoundsSmallW }).usedTiling) := by
  have h1 : totalBounds dwArgsProbLargeW.aoiShp = totalBounds shpSameBoundsW := by
    show totalBounds [(0, 0), (2, 2)] = totalBounds shpSameBoundsW
    simp only [totalBounds, shpSameBoundsW, List.foldl_cons, List.foldl_nil]
    norm_num
  have h2 : totalBounds s2ArgsSmallW.aoiShp = totalBounds shpSameBoundsSmallW := by
    show totalBounds [(0, 0)] = totalBounds shpSameBoundsSmallW
    simp only [totalBounds, shpSameBoundsSmallW, List.foldl_cons, List.foldl_nil]
    norm_num
  exact ⟨h1, h2, c8_bounds_determine_strategy dwArgsProbLargeW shpSameBoundsW
    s2ArgsSmallW shpSameBoundsSmallW h1 h2⟩

/-- C7: in every execution of either public function, authentication and
initialization are the first two steps of the trace, so no service operation
precedes them. -/
theorem c7_auth_init_first (ad : DWArgs) (as2 : S2Args) :
    (get_dynworld_landcover ad).trace.take 2
        = [Ev.authenticate, Ev.initProject ad.eeProjectId]
    ∧ (get_sentinel2 as2).trace.take 2
        = [Ev.authenticate, Ev.initProject as2.eeProjectId] := by
  constructor
  · cases h : largeAOI_dw (_get_aoi ad.aoiShp) with
    | false => rw [dwRun_small ad h]; simp [dwPre]
    | true => rw [dwRun_large ad h]; simp [dwPre]
  · cases h : largeAOI_s2 (_get_aoi as2.aoiShp) with
    | false => rw [s2Run_small as2 h]; rfl
    | true => rw [s2Run_large as2 h]; simp

/-- C4: a `get_sentinel2` run never performs a masking/reduction pipeline step
(collection building, cloud bands, shadow bands, mask application, median
reduction), and every step it does perform is request construction or local
file handling. -/
theorem c4_s2_no_pipeline (a : S2Args) :
    (get_sentinel2 a).trace.all (fun e => !(isS2Pipeline e)) = true
    ∧ (get_sentinel2 a).trace.all isS2Allowed = true := by
  have key : ∀ e ∈ (get_sentinel2 a).trace, isS2Pipeline e = false ∧ isS2Allowed e = true := by
    intro e he
    cases h : largeAOI_s2 (_get_aoi a.aoiShp) with
    | false =>
      rw [s2Run_small a h] at he
      simp only [List.mem_cons, List.not_mem_nil, or_false] at he
      rcases he with rfl | rfl
      · exact ⟨rfl, rfl⟩
      · exact ⟨rfl, rfl⟩
    | true =>
      rw [s2Run_large a h] at he
      rcases List.mem_append.mp he with h2 | h2
      · simp only [List.mem_cons, List.not_mem_nil, or_false] at h2
        rcases h2 with rfl | rfl
        · exact ⟨rfl, rfl⟩
        · exact ⟨rfl, rfl⟩
      · rcases s2_fold_trace_mem _ _ _ _ _ _ h2 with h3 | ⟨b, ml, _, he2⟩
        · simp only [List.mem_cons, List.not_mem_nil, or_false] at h3
          subst h3
          exact ⟨rfl, rfl⟩
        · subst he2
          exact ⟨rfl, rfl⟩
  constructor
  · rw [List.all_eq_true]
    intro e he
    simp [(key e he).1]
  · rw [List.all_eq_true]
    exact fun e he => (key e he).2

lemma foldl_append_windows {α : Type} (f : Nat → List α) (n : Nat) :
    (List.range' 1 n).foldl (fun acc i => acc ++ f i) (f 0)
      = ((List.range (n + 1)).map f).flatten := by
  induction n with
  | zero =>
    rw [show List.range 1 = [0] from rfl]
    simp
  | succ n ih =>
    rw [List.range'_concat, List.foldl_append, ih]
    simp only [List.foldl_cons, List.foldl_nil]
    rw [show 1 + 1 * n = n + 1 by omega]
    nth_rewrite 2 [List.range_succ]
    rw [List.map_append, List.flatten_append]
    simp only [List.map_cons, List.map_nil, List.flatten_cons, List.flatten_nil,
      List.append_nil]

/-- C6: for a nonempty date list, each collection builder returns the merge
(concatenation) of the per-window collections, window `i` being the source
collection filtered to the AOI bounds and the date range from the i-th start
date (inclusive) to the i-th end date (exclusive); this holds for the Dynamic
World builder and the Sentinel-2 joined builder. -/
theorem c6_collections_merge (cat : Catalog) (aoi : BBox) (sd ed : List ℤ) (cf : ℤ)
    (h : 1 ≤ sd.length) :
    _get_dynworld_col cat aoi sd ed
        = ((List.range sd.length).map
            (fun i => dwWindow cat aoi (sd.getD i 0) (ed.getD i 0))).flatten
    ∧ _get_s2_sr_cld_col cat aoi sd ed cf
        = ((List.range sd.length).map
            (fun i => s2Window cat aoi cf (sd.getD i 0) (ed.getD i 0))).flatten := by
  have hn : sd.length - 1 + 1 = sd.length := by omega
  constructor
  · have h2 := foldl_append_windows
      (fun i => dwWindow cat aoi (sd.getD i 0) (ed.getD i 0)) (sd.length - 1)
    rw [hn] at h2
    exact h2
  · by_cases h1 : sd.length = 1
    · simp only [_get_s2_sr_cld_col, h1, bne_self_eq_false, Bool.false_eq_true, if_false]
      simp [List.range_succ]
    · have h2 := foldl_append_windows
        (fun i => s2Window cat aoi cf (sd.getD i 0) (ed.getD i 0)) (sd.length - 1)
      rw [hn] at h2
      simp only [_get_s2_sr_cld_col]
      rw [if_pos (by simp [h1])]
      exact h2

/-- C6 witness: the theorem instantiated with two date windows and an empty
catalog. -/
theorem c6_collections_merge_witness :
    1 ≤ ([0, 10] : List ℤ).length
    ∧ (_get_dynworld_col (fun _ => []) ⟨0, 0, 1, 1⟩ [0, 10] [5, 15]
        = ((List.range ([0, 10] : List ℤ).length).map
            (fun i => dwWindow (fun _ => []) ⟨0, 0, 1, 1⟩
              (([0, 10] : List ℤ).getD i 0) (([5, 15] : List ℤ).getD i 0))).flatten
       ∧ _get_s2_sr_cld_col (fun _ => []) ⟨0, 0, 1, 1⟩ [0, 10] [5, 15] 15
        = ((List.range ([0, 10] : List ℤ).length).map
            (fun i => s2Window (fun _ => []) ⟨0, 0, 1, 1⟩ 15
              (([0, 10] : List ℤ).getD i 0) (([5, 15] : List ℤ).getD i 0))).flatten) :=
  ⟨by decide, c6_collections_merge (fun _ => []) ⟨0, 0, 1, 1⟩ [0, 10] [5, 15] 15 (by decide)⟩

lemma probOutputEv_ne_reduce (x : Reducer) (large : Bool) (out b : String) :
    probOutputEv large out b ≠ Ev.reduce x :=
  fun h2 => reduce_ne_probOutputEv x large out b h2.symm

lemma reduce_mem_dw_trace (a : DWArgs) (pt : String) (h : a.probType = some pt)
    (x : Reducer) (hx : x ≠ Reducer.mode) :
    (Ev.reduce x ∈ (get_dynworld_landcover a).trace)
      ↔ x = (if pt == "mean" then Reducer.mean else Reducer.median) := by
  cases hl : largeAOI_dw (_get_aoi a.aoiShp) with
  | true =>
    rw [dwRun_large a hl, h, dwProb_trace_some]
    simp [dwPre, dwClassLargeEvs, dwClassTileNames, hx, reduce_ne_probOutputEv,
      probOutputEv_ne_reduce]
  | false =>
    rw [dwRun_small a hl, h, dwProb_trace_some]
    simp [dwPre, hx, reduce_ne_probOutputEv, probOutputEv_ne_reduce]

lemma probOutput_mem_dw_trace (a : DWArgs) (pt : String) (h : a.probType = some pt)
    (b : String) (hb : b ∈ a.bands.getD dwDefaultBands) :
    probOutputEv (largeAOI_dw (_get_aoi a.aoiShp)) a.outFolder b
      ∈ (get_dynworld_landcover a).trace := by
  cases hl : largeAOI_dw (_get_aoi a.aoiShp) with
  | true =>
    rw [dwRun_large a hl, h, dwProb_trace_some]
    refine List.mem_append.mpr (Or.inr ?_)
    refine List.mem_cons_of_mem _ (List.mem_append.mpr (Or.inr ?_))
    exact List.mem_map_of_mem _ hb
  | false =>
    rw [dwRun_small a hl, h, dwProb_trace_some]
    refine List.mem_append.mpr (Or.inr ?_)
    refine List.mem_cons_of_mem _ (List.mem_append.mpr (Or.inr ?_))
    exact List.mem_map_of_mem _ hb

/-- C10: `get_dynworld_landcover` never rejects a probability type: for every
non-None `prob_type` the run returns normally, the mean reducer is used exactly
when the value is "mean", the median reducer for every other value, and a
probability download step is issued for every requested band. -/
theorem c10_probtype_never_rejected (a : DWArgs) (pt : String) (h : a.probType = some pt) :
    (get_dynworld_landcover a).result = Except.ok ()
    ∧ ((Ev.reduce Reducer.mean ∈ (get_dynworld_landcover a).trace) ↔ pt = "mean")
    ∧ ((Ev.reduce Reducer.median ∈ (get_dynworld_landcover a).trace) ↔ pt ≠ "mean")
    ∧ ∀ b ∈ a.bands.getD dwDefaultBands,
        probOutputEv (largeAOI_dw (totalBounds a.aoiShp)) a.outFolder b
          ∈ (get_dynworld_landcover a).trace := by
  refine ⟨dwRun_ok a, ?_, ?_, fun b hb => probOutput_mem_dw_trace a pt h b hb⟩
  · rw [reduce_mem_dw_trace a pt h Reducer.mean (by simp)]
    cases hb : pt == "mean" with
    | true => simp [eq_of_beq hb]
    | false =>
      have : ¬(pt = "mean") := by
        intro h2
        rw [h2] at hb
        simp at hb
      simp [hb, this]
  · rw [reduce_mem_dw_trace a pt h Reducer.median (by simp)]
    cases hb : pt == "mean" with
    | true => simp [eq_of_beq hb]
    | false =>
      have : ¬(pt = "mean") := by
        intro h2
        rw [h2] at hb
        simp at hb
      simp [hb, this]

/-- C10 witness: the theorem instantiated with the unrecognized probability
type "average", which is accepted and handled with the median reducer. -/
theorem c10_probtype_never_rejected_witness :
    dwArgsProbOddW.probType = some "average"
    ∧ ((get_dynworld_landcover dwArgsProbOddW).result = Except.ok ()
       ∧ ((Ev.reduce Reducer.mean ∈ (get_dynworld_landcover dwArgsProbOddW).trace)
            ↔ "average" = "mean")
       ∧ ((Ev.reduce Reducer.median ∈ (get_dynworld_landcover dwArgsProbOddW).trace)
            ↔ "average" ≠ "mean")
       ∧ ∀ b ∈ dwArgsProbOddW.bands.getD dwDefaultBands,
           probOutputEv (largeAOI_dw (totalBounds dwArgsProbOddW.aoiShp))
               dwArgsProbOddW.outFolder b
             ∈ (get_dynworld_landcover dwArgsProbOddW).trace) :=
  ⟨rfl, c10_probtype_never_rejected dwArgsProbOddW "average" rfl⟩

lemma pjoin_ne_pjoin (s t u : String) (h : t.length ≠ u.length) :
    pjoin s t ≠ pjoin s u := by
  intro he
  have h2 := congrArg String.length he
  rw [pjoin_length, pjoin_length] at h2
  omega

/-- C2 counterexample: on a large AOI with `prob_type='mean'` and band `water`,
the probability tiles are downloaded into the probability folder but the run
performs exactly one mosaic (the landcover class), so the probability tiles are
never mosaicked and remain as tile files. -/
theorem c2_counterexample :
    largeAOI_dw (totalBounds dwArgsProbLargeW.aoiShp) = true
    ∧ Ev.downloadTiles "landcover_water_" (pjoin "out" "probability")
        ∈ (get_dynworld_landcover dwArgsProbLargeW).trace
    ∧ ((get_dynworld_landcover dwArgsProbLargeW).trace.filter Ev.isMosaic).map Ev.mosaicTarget
        = [pjoin "out" "landcover.tif"]
    ∧ ("out/probability", "landcover_water_1.tif")
        ∈ (get_dynworld_landcover dwArgsProbLargeW).fs.files := by
  have h : largeAOI_dw (_get_aoi dwArgsProbLargeW.aoiShp) = true := by
    show largeAOI_dw (totalBounds [(0, 0), (2, 2)]) = true
    simp only [totalBounds, List.foldl_cons, List.foldl_nil]
    norm_num [largeAOI_dw]
  refine ⟨h, ?_, ?_, ?_⟩ <;> rw [dwRun_large _ h] <;> decide

/-- C2 amended: on tiled downloads, the landcover class tiles are mosaicked
into exactly one file (`landcover.tif`), and each requested Sentinel-2 band is
mosaicked into exactly one file (`sentinel2_<band>.tif`); the mosaic steps of a
Dynamic World run are exactly that one, so the per-band probability tiles, when
`prob_type` is not None, are downloaded but never mosaicked. -/
theorem c2_amended (ad : DWArgs) (as2 : S2Args)
    (hd : largeAOI_dw (totalBounds ad.aoiShp) = true)
    (hs : largeAOI_s2 (totalBounds as2.aoiShp) = true) :
    ((get_dynworld_landcover ad).trace.filter Ev.isMosaic).map Ev.mosaicTarget
        = [pjoin ad.outFolder "landcover.tif"]
    ∧ ((get_sentinel2 as2).trace.filter Ev.isMosaic).map Ev.mosaicTarget
        = (as2.bands.getD s2DefaultBands).map
            (fun b => pjoin as2.outFolder ("sentinel2_" ++ b ++ ".tif")) := by
  constructor
  · rw [dwRun_large ad hd]
    cases hp : ad.probType with
    | none =>
      rw [dwProb_none]
      simp [dwPre, dwClassLargeEvs, dwClassTileNames, Ev.isMosaic, Ev.mosaicTarget]
    | some pt =>
      rw [dwProb_trace_some]
      simp [dwPre, dwClassLargeEvs, dwClassTileNames, Ev.isMosaic, Ev.mosaicTarget,
        filter_map_eq_nil _ _ _ (isMosaic_probOutputEv true ad.outFolder)]
  · rw [s2Run_large as2 hs]
    rw [List.filter_append, List.map_append, s2_fold_mosaics]
    simp [Ev.isMosaic]

/-- C2 amended witness: the amended theorem at concrete large-AOI arguments. -/
theorem c2_amended_witness :
    largeAOI_dw (totalBounds dwArgsProbLargeW.aoiShp) = true
    ∧ largeAOI_s2 (totalBounds s2ArgsLargeW.aoiShp) = true
    ∧ (((get_dynworld_landcover dwArgsProbLargeW).trace.filter Ev.isMosaic).map Ev.mosaicTarget
          = [pjoin dwArgsProbLargeW.outFolder "landcover.tif"]
       ∧ ((get_sentinel2 s2ArgsLargeW).trace.filter Ev.isMosaic).map Ev.mosaicTarget
          = (s2ArgsLargeW.bands.getD s2DefaultBands).map
              (fun b => pjoin s2ArgsLargeW.outFolder ("sentinel2_" ++ b ++ ".tif"))) := by
  have h1 : largeAOI_dw (totalBounds dwArgsProbLargeW.aoiShp) = true := by
    show largeAOI_dw (totalBounds [(0, 0), (2, 2)]) = true
    simp only [totalBounds, List.foldl_cons, List.foldl_nil]
    norm_num [largeAOI_dw]
  have h2 : largeAOI_s2 (totalBounds s2ArgsLargeW.aoiShp) = true := by
    show largeAOI_s2 (totalBounds [(0, 0), (2, 2)]) = true
    simp only [totalBounds, List.foldl_cons, List.foldl_nil]
    norm_num [largeAOI_s2]
  exact ⟨h1, h2, c2_amended dwArgsProbLargeW s2ArgsLargeW h1 h2⟩

/-- C3 counterexample: after a large-AOI `get_sentinel2` run returns normally,
the `temp_tiles` directory still exists (the cleanup block is commented out). -/
theorem c3_counterexample :
    largeAOI_s2 (totalBounds s2ArgsLargeW.aoiShp) = true
    ∧ (get_sentinel2 s2ArgsLargeW).result = Except.ok ()
    ∧ pjoin "out" "temp_tiles" ∈ (get_sentinel2 s2ArgsLargeW).fs.dirs := by
  have h : largeAOI_s2 (_get_aoi s2ArgsLargeW.aoiShp) = true := by
    show largeAOI_s2 (totalBounds [(0, 0), (2, 2)]) = true
    simp only [totalBounds, List.foldl_cons, List.foldl_nil]
    norm_num [largeAOI_s2]
  refine ⟨h, ?_, ?_⟩
  · rw [s2Run_large _ h]
  · rw [s2Run_large _ h]
    decide

/-- C3 amended: `get_dynworld_landcover` always returns normally with the
`temp_tiles` directory absent and no file left inside it; in `get_sentinel2`
the cleanup is commented out, so (per the counterexample) `temp_tiles`
persists after the function returns. -/
theorem c3_amended (a : DWArgs) :
    (get_dynworld_landcover a).result = Except.ok ()
    ∧ pjoin a.outFolder "temp_tiles" ∉ (get_dynworld_landcover a).fs.dirs
    ∧ ∀ p ∈ (get_dynworld_landcover a).fs.files, p.1 ≠ pjoin a.outFolder "temp_tiles" := by
  have hprob : pjoin a.outFolder "probability" ≠ pjoin a.outFolder "temp_tiles" := by
    apply pjoin_ne_pjoin
    decide
  have hout : a.outFolder ≠ pjoin a.outFolder "temp_tiles" := ne_pjoin_self _ _
  refine ⟨dwRun_ok a, ?_, ?_⟩
  · cases hl : largeAOI_dw (_get_aoi a.aoiShp) with
    | true =>
      rw [dwRun_large a hl]
      intro hmem
      rcases dwProb_dirs _ _ _ _ _ _ hmem with h2 | h2
      · simp only [List.mem_cons, List.not_mem_nil, or_false] at h2
        exact hout h2.symm
      · exact hprob h2.symm
    | false =>
      rw [dwRun_small a hl]
      intro hmem
      rcases dwProb_dirs _ _ _ _ _ _ hmem with h2 | h2
      · simp only [List.mem_cons, List.not_mem_nil, or_false] at h2
        exact hout h2.symm
      · exact hprob h2.symm
  · cases hl : largeAOI_dw (_get_aoi a.aoiShp) with
    | true =>
      rw [dwRun_large a hl]
      intro p hp
      rcases dwProb_files _ _ _ _ _ _ hp with h2 | h2
      · simp only [List.mem_cons, List.not_mem_nil, or_false] at h2
        rw [h2]
        exact hout
      · rw [h2]
        exact hprob
    | false =>
      rw [dwRun_small a hl]
      intro p hp
      rcases dwProb_files _ _ _ _ _ _ hp with h2 | h2
      · simp only [List.mem_cons, List.not_mem_nil, or_false] at h2
        rw [h2]
        exact hout
      · rw [h2]
        exact hprob

/-- C5 counterexample: a small-AOI `get_sentinel2` call with an explicitly
empty band list returns normally (no NameError), refuting the claim for every
small AOI. -/
theorem c5_counterexample :
    largeAOI_s2 (totalBounds s2ArgsEmptyBandsW.aoiShp) = false
    ∧ (get_sentinel2 s2ArgsEmptyBandsW).result = Except.ok ()
    ∧ (get_sentinel2 s2ArgsEmptyBandsW).trace.all (fun e => !(e.isDownload)) = true := by
  have h : largeAOI_s2 (_get_aoi s2ArgsEmptyBandsW.aoiShp) = false := by
    show largeAOI_s2 (totalBounds [(0, 0)]) = false
    norm_num [largeAOI_s2, totalBounds]
  refine ⟨h, ?_, ?_⟩ <;> rw [s2Run_small _ h] <;> rfl

/-- C5 amended: for every small AOI, when the effective band list is non-empty
(in particular for the default bands), `get_sentinel2` raises an unhandled
NameError on `available_bands` and downloads nothing. -/
theorem c5_amended (a : S2Args)
    (h : largeAOI_s2 (totalBounds a.aoiShp) = false)
    (hb : a.bands.getD s2DefaultBands ≠ []) :
    (get_sentinel2 a).result = Except.error (Err.nameError "available_bands")
    ∧ (get_sentinel2 a).trace.all (fun e => !(e.isDownload)) = true := by
  rw [s2Run_small a h]
  constructor
  · rcases hl : a.bands.getD s2DefaultBands with _ | ⟨b, bs⟩
    · exact absurd hl hb
    · simp [hl]
  · rfl

/-- C5 amended witness: the amended theorem at concrete small-AOI arguments
with the default band list. -/
theorem c5_amended_witness :
    largeAOI_s2 (totalBounds s2ArgsSmallW.aoiShp) = false
    ∧ s2ArgsSmallW.bands.getD s2DefaultBands ≠ []
    ∧ ((get_sentinel2 s2ArgsSmallW).result = Except.error (Err.nameError "available_bands")
       ∧ (get_sentinel2 s2ArgsSmallW).trace.all (fun e => !(e.isDownload)) = true) := by
  have h1 : largeAOI_s2 (totalBounds s2ArgsSmallW.aoiShp) = false := by
    show largeAOI_s2 (totalBounds [(0, 0)]) = false
    norm_num [largeAOI_s2, totalBounds]
  have h2 : s2ArgsSmallW.bands.getD s2DefaultBands ≠ [] := by decide
  exact ⟨h1, h2, c5_amended s2ArgsSmallW h1 h2⟩

end ProcessGEE
